import Mathlib

/-!
Shallow embedding of the extension registry in `src/mesinyer/extension.py`.

Implementations (Python classes) are modelled as an `Impl` record carrying
the identifier `_get_class_name` would derive for them (the absolute path
of the defining module plus the class name, precomputed in `Impl.id`) and
the list of attribute names the class exposes (what `hasattr` sees).
Interface classes are modelled by their `dir` listing.  Python `None`
standing where a class or an interface is expected is modelled by
`Option`.  Python dictionaries are association lists, raised exceptions
are the `Except` monad, and the weak reference held in the category's
`instance` field is modelled by an explicit liveness predicate
`alive : Inst → Bool` supplied by the environment (it tells whether the
referent is still strongly held by some caller).
-/

/-- A Python class usable as an extension: its derived identifier and the
attribute names it exposes. -/
structure Impl where
  id : String
  attrs : List String
deriving DecidableEq, Repr

/-- An interface class, described by its `dir` listing (attribute names,
underscore-prefixed ones included). -/
structure Interface where
  attrs : List String
deriving DecidableEq, Repr

/-- An object produced by calling a class: the class identifier, the
constructor arguments, and a serial number distinguishing separate
constructions (object identity). -/
structure Inst where
  cls : String
  args : List Nat
  serial : Nat
deriving DecidableEq, Repr

/-- The Python exceptions the registry code can raise.  `valueError`
carries the offending interface named in `Category.register`'s message. -/
inductive PyError where
  | valueError (offending : Option Interface)
  | keyError
  | attributeError
deriving DecidableEq, Repr

deriving instance DecidableEq for Except

/-- Python `d.get(k)` / `d[k]` lookup on a dictionary modelled as an
association list. -/
def alistGet {α β : Type} [DecidableEq α] : List (α × β) → α → Option β
  | [], _ => none
  | p :: rest, k => if p.1 = k then some p.2 else alistGet rest k

/-- Python `d[k] = v`: overwrite the entry for `k` when present, append a
new one otherwise. -/
def alistSet {α β : Type} [DecidableEq α] : List (α × β) → α → β → List (α × β)
  | [], k, v => [(k, v)]
  | p :: rest, k, v => if p.1 = k then (k, v) :: rest else p :: alistSet rest k v

/-- Python `d.values()`. -/
def alistValues {α β : Type} (d : List (α × β)) : List β :=
  d.map (fun p => p.2)

/-- Python `hasattr(cls, name)` for a class or `None`; `None` exposes only
underscore-prefixed attributes, hence no public one. -/
def hasattr : Option Impl → String → Bool
  | none, _ => false
  | some cls, name => cls.attrs.contains name

/-- Python `attribute.startswith('_')`: the name's first character is an
underscore. -/
def startswithUnderscore (s : String) : Bool :=
  match s.data with
  | [] => false
  | c :: _ => c = '_'

/-- The non-underscore names in `dir(interface_cls)`; `dir(None)` lists
only underscore-prefixed names, so its public part is empty. -/
def dirPublic : Option Interface → List String
  | none => []
  | some i => i.attrs.filter (fun a => !(startswithUnderscore a))

/-- `is_implementation(cls, interface_cls)` from `extension.py`: `cls`
must expose every attribute of `interface_cls` whose name does not start
with an underscore. -/
def is_implementation (cls : Option Impl) (interface_cls : Option Interface) : Bool :=
  (dirPublic interface_cls).all (fun method => hasattr cls method)

/-- `_get_class_name(cls)`: the absolute path of the defining module plus
the class name, precomputed in `Impl.id`.  Called on `None` it raises
`AttributeError` (`None` has no `__module__` attribute). -/
def _get_class_name : Option Impl → Except PyError String
  | none => Except.error PyError.attributeError
  | some cls => Except.ok cls.id

/-- The state of a `Category` object (`extension.py`, lines 136 to 263).
`system_default` is `none` when the constructor was given a falsy value
and therefore never created the attribute; `instance_` stands for the
`instance` field (`None` or a weak reference). -/
structure Category where
  name : String
  system_default : Option Impl
  interfaces : List (Option Interface)
  classes : List (String × Impl)
  ids : List (Impl × String)
  is_single : Bool
  instance_ : Option Inst
  default_id : Option String
deriving DecidableEq, Repr

/-- `Category.register(cls)`: check `cls` against every required
interface, raising `ValueError` naming the first offending one; then
`class_name = _get_class_name(cls)` (which raises `AttributeError` on
`None`) and the `id → cls` and `cls → id` entries are stored.  Every
check precedes every mutation, so a raise leaves the category unchanged. -/
def Category.register (c : Category) (cls : Option Impl) : Except PyError Category :=
  match c.interfaces.find? (fun interface => !(is_implementation cls interface)) with
  | some interface => Except.error (PyError.valueError interface)
  | none =>
    match cls with
    | none => Except.error PyError.attributeError
    | some impl =>
      Except.ok { c with classes := alistSet c.classes impl.id impl,
                         ids := alistSet c.ids impl impl.id }

/-- `Category.set_interface(interfaces)`: when no interface is set yet,
adopt the new tuple and try to delete every registered class failing one
of the new interfaces; the deletion runs `del self.classes[cls]` with the
class itself as key although `classes` is keyed by id strings, so the
first attempted removal raises `KeyError`.  When an interface is already
set, nothing changes and `False` is returned. -/
def Category.set_interface (c : Category) (interfaces : List (Option Interface)) :
    Except PyError (Bool × Category) :=
  if c.interfaces.isEmpty then
    let c1 : Category := { c with interfaces := interfaces }
    let to_remove := (alistValues c1.classes).filter
      (fun cls => c1.interfaces.any (fun interface => !(is_implementation (some cls) interface)))
    if to_remove.isEmpty then Except.ok (true, c1)
    else Except.error PyError.keyError
  else Except.ok (false, c)

/-- `Category.get_extensions()`: the live `id → class` mapping. -/
def Category.get_extensions (c : Category) : List (String × Impl) :=
  c.classes

/-- `Category._set_default(cls)`, the `default` property setter: register
`cls` first when it is not a key of `ids`, then, if its id differs from
the current `default_id`, select it and drop the cached instance. -/
def Category._set_default (c : Category) (cls : Option Impl) : Except PyError Category := do
  let c1 ←
    match cls with
    | none => c.register none
    | some impl =>
      if (alistGet c.ids impl).isSome then Except.ok c else c.register (some impl)
  let id_ ← _get_class_name cls
  if c1.default_id ≠ some id_ then
    Except.ok { c1 with default_id := some id_, instance_ := none }
  else
    Except.ok c1

/-- `Category._get_default`, the `default` property getter:
`self.classes[self.default_id]`, raising `KeyError` when `default_id` is
`None` or is not a key of `classes`. -/
def Category._get_default (c : Category) : Except PyError Impl :=
  match c.default_id.bind (fun id_ => alistGet c.classes id_) with
  | some impl => Except.ok impl
  | none => Except.error PyError.keyError

/-- `Category.__init__(name, system_default, interfaces, single_instance)`:
the `system_default` attribute is only created when the argument is
truthy; `interfaces` is normalized to `()` when `None`; the final
`self.default = system_default` assignment goes through the `default`
property and therefore runs `_set_default` on the fresh state. -/
def Category.init (name : String) (system_default : Option Impl)
    (interfaces : Option (List (Option Interface))) (single_instance : Bool) :
    Except PyError Category :=
  let c0 : Category :=
    { name := name,
      system_default := system_default,
      interfaces := interfaces.getD [],
      classes := [],
      ids := [],
      is_single := single_instance,
      instance_ := none,
      default_id := none }
  c0._set_default system_default

/-- `Category.get_instance()`: dereference the stored weak reference;
`alive` tells whether the referent is still strongly held somewhere. -/
def Category.get_instance (c : Category) (alive : Inst → Bool) : Option Inst :=
  match c.instance_ with
  | some r => if alive r then some r else none
  | none => none

/-- `Category.get_and_instantiate(*args)`: return the cached instance when
the weak reference yields one (the arguments are ignored then); otherwise
instantiate the default class — `serial` is the identity of the freshly
constructed object — and, when `is_single`, store a weak reference to it. -/
def Category.get_and_instantiate (c : Category) (alive : Inst → Bool)
    (args : List Nat) (serial : Nat) : Except PyError (Inst × Category) :=
  match c.get_instance alive with
  | some i => Except.ok (i, c)
  | none => do
    let cls ← c._get_default
    let inst : Inst := { cls := cls.id, args := args, serial := serial }
    if c.is_single then
      Except.ok (inst, { c with instance_ := some inst })
    else
      Except.ok (inst, c)

/-- `Category.set_default_by_id(id_)`: an unknown id only produces a
diagnostic through `dbg` and falls through (the method always returns
`None`); a known id assigns `self.default`. -/
def Category.set_default_by_id (c : Category) (id_ : String) : Except PyError Category :=
  match alistGet c.classes id_ with
  | none => Except.ok c
  | some cls => c._set_default (some cls)

/-- The module-level `_categories` dictionary. -/
abbrev Registry := List (String × Category)

/-- `get_category(category_name)`: `_categories.get(category_name, None)`. -/
def get_category (r : Registry) (category_name : String) : Option Category :=
  alistGet r category_name

/-- `category_register(category, system_default, interfaces=(), single_instance=False)`:
create the category when absent, otherwise delegate to `set_interface`.
The `interfaces` argument arrives here already normalized to an iterable
(a non-iterable argument is wrapped in a one-element tuple by the caller).
The Python return value is always `None`. -/
def category_register (r : Registry) (category : String) (system_default : Option Impl)
    (interfaces : List (Option Interface)) (single_instance : Bool) :
    Except PyError Registry :=
  match alistGet r category with
  | none => do
    let c ← Category.init category system_default (some interfaces) single_instance
    Except.ok (alistSet r category c)
  | some cat => do
    let p ← cat.set_interface interfaces
    Except.ok (alistSet r category p.2)

/-- Module-level `register(category_name, cls)`: the first component of
the result is the Python return value — `None` (modelled `none`) on the
implicit-creation path, which returns whatever `category_register`
returns, and `True` (modelled `some true`) on the existing-category
path.  The trailing `return False` in the source is unreachable. -/
def register (r : Registry) (category_name : String) (cls : Option Impl) :
    Except PyError (Option Bool × Registry) :=
  match alistGet r category_name with
  | none => do
    let r1 ← category_register r category_name cls [] false
    Except.ok (none, r1)
  | some category => do
    let c1 ← category.register cls
    Except.ok (some true, alistSet r category_name c1)

/-- Module-level `get_default(category_name)`: `None` for an absent
category, otherwise the category's `default` property (which may raise
`KeyError`). -/
def get_default (r : Registry) (category_name : String) :
    Except PyError (Option Impl) :=
  match alistGet r category_name with
  | some category => (category._get_default).map (fun impl => some impl)
  | none => Except.ok none

/-- Module-level `set_default(category_name, cls)`. -/
def set_default (r : Registry) (category_name : String) (cls : Option Impl) :
    Except PyError (Bool × Registry) :=
  match alistGet r category_name with
  | some category =>
    (category._set_default cls).map (fun c1 => (true, alistSet r category_name c1))
  | none => Except.ok (false, r)

/-- Module-level `set_default_by_id(category_name, id_)`: returns `True`
whenever the category exists — whatever the id —, `False` otherwise. -/
def set_default_by_id (r : Registry) (category_name : String) (id_ : String) :
    Except PyError (Bool × Registry) :=
  match alistGet r category_name with
  | some category =>
    (category.set_default_by_id id_).map (fun c1 => (true, alistSet r category_name c1))
  | none => Except.ok (false, r)

/-- Module-level `get_system_default(category_name)`: reads the
`system_default` attribute, which raises `AttributeError` when the
constructor never created it. -/
def get_system_default (r : Registry) (category_name : String) :
    Except PyError (Option Impl) :=
  match alistGet r category_name with
  | some category =>
    match category.system_default with
    | some sd => Except.ok (some sd)
    | none => Except.error PyError.attributeError
  | none => Except.ok none

/-- Python truthiness of a `None`-or-`bool` return value. -/
def pyTruthy : Option Bool → Bool
  | none => false
  | some b => b

/-- One mutating operation on a category, for stating invariants over
arbitrary call sequences. -/
inductive Op where
  | opRegister (cls : Option Impl)
  | opSetInterface (interfaces : List (Option Interface))
  | opSetDefault (cls : Option Impl)
  | opSetDefaultById (id_ : String)
  | opGetAndInstantiate (args : List Nat) (serial : Nat)

/-- Run one operation on a category; a raised exception leaves the state
as it was (in the source no operation mutates the `instance` field before
raising, so this is faithful for the cache). -/
def Category.step (c : Category) (alive : Inst → Bool) : Op → Category
  | Op.opRegister cls =>
    match c.register cls with
    | Except.ok c1 => c1
    | Except.error _ => c
  | Op.opSetInterface interfaces =>
    match c.set_interface interfaces with
    | Except.ok p => p.2
    | Except.error _ => c
  | Op.opSetDefault cls =>
    match c._set_default cls with
    | Except.ok c1 => c1
    | Except.error _ => c
  | Op.opSetDefaultById id_ =>
    match c.set_default_by_id id_ with
    | Except.ok c1 => c1
    | Except.error _ => c
  | Op.opGetAndInstantiate args serial =>
    match c.get_and_instantiate alive args serial with
    | Except.ok p => p.2
    | Except.error _ => c

/-- Run a sequence of operations left to right. -/
def Category.steps (c : Category) (alive : Inst → Bool) : List Op → Category
  | [] => c
  | op :: ops => Category.steps (c.step alive op) alive ops

/-- Bind on `Except` applied to a success, as produced by the do-notation. -/
@[simp] theorem exceptBind_ok {ε α β : Type} (a : α) (f : α → Except ε β) :
    (Except.ok a >>= f : Except ε β) = f a := rfl

/-- Bind on `Except` applied to a raised exception. -/
@[simp] theorem exceptBind_error {ε α β : Type} (e : ε) (f : α → Except ε β) :
    ((Except.error e : Except ε α) >>= f) = Except.error e := rfl

/-- Map on `Except` applied to a success. -/
@[simp] theorem exceptMap_ok {ε α β : Type} (f : α → β) (a : α) :
    Except.map f (Except.ok a : Except ε α) = Except.ok (f a) := rfl

/-- Map on `Except` applied to a raised exception. -/
@[simp] theorem exceptMap_error {ε α β : Type} (f : α → β) (e : ε) :
    Except.map f (Except.error e : Except ε α) = Except.error e := rfl

/-- Looking up the key just stored yields the stored value. -/
theorem alistGet_alistSet_self {α β : Type} [DecidableEq α]
    (d : List (α × β)) (k : α) (v : β) :
    alistGet (alistSet d k v) k = some v := by
  induction d with
  | nil => simp [alistSet, alistGet]
  | cons p rest ih =>
    by_cases h : p.1 = k
    · simp [alistSet, alistGet, h]
    · simp [alistSet, alistGet, h, ih]

/-- A sample extension class exposing no attribute at all. -/
def implA : Impl := { id := "a.py:A", attrs := [] }

/-- A sample extension class exposing `foo`. -/
def implB : Impl := { id := "b.py:B", attrs := ["foo"] }

/-- A sample extension class exposing `foo` and `bar`. -/
def implC : Impl := { id := "c.py:C", attrs := ["foo", "bar"] }

/-- A sample extension class for the implicit-creation scenarios. -/
def implX : Impl := { id := "x.py:X", attrs := ["foo"] }

/-- A sample interface requiring the public method `foo` (its `dir` also
lists `__init__`, which is underscore-prefixed and hence ignored). -/
def ifaceFoo : Interface := { attrs := ["foo", "__init__"] }

/-- The state `Category("cat", implA, (), False)` reaches: `implA` is
registered by the trailing `self.default = system_default` assignment and
selected as default. -/
def catA : Category :=
  { name := "cat", system_default := some implA, interfaces := [],
    classes := [("a.py:A", implA)], ids := [(implA, "a.py:A")],
    is_single := false, instance_ := none, default_id := some "a.py:A" }

/-- Like `catA` but holding the conforming `implB`. -/
def catB : Category :=
  { name := "catb", system_default := some implB, interfaces := [],
    classes := [("b.py:B", implB)], ids := [(implB, "b.py:B")],
    is_single := false, instance_ := none, default_id := some "b.py:B" }

/-- A category constrained by `ifaceFoo`, holding the conforming `implB`. -/
def catI : Category :=
  { name := "codec", system_default := some implB, interfaces := [some ifaceFoo],
    classes := [("b.py:B", implB)], ids := [(implB, "b.py:B")],
    is_single := false, instance_ := none, default_id := some "b.py:B" }

/-- A single-instance category with `implB` and `implC` registered,
`implB` selected, and no cached instance yet. -/
def catSN : Category :=
  { name := "single", system_default := some implB, interfaces := [],
    classes := [("b.py:B", implB), ("c.py:C", implC)],
    ids := [(implB, "b.py:B"), (implC, "c.py:C")],
    is_single := true, instance_ := none, default_id := some "b.py:B" }

/-- A sample instance of `implB`. -/
def instB : Inst := { cls := "b.py:B", args := [1], serial := 0 }

/-- `catSN` with a populated instance cache. -/
def catSP : Category := { catSN with instance_ := some instB }

/-- The category state produced by the implicit-creation path of the
module-level `register` for a fresh name `n` and class `x`: `x` is stored
as system default, registered, and — through the `default` property
assignment in the constructor — also selected as default. -/
def freshCategory (n : String) (x : Impl) : Category :=
  { name := n, system_default := some x, interfaces := [],
    classes := [(x.id, x)], ids := [(x, x.id)],
    is_single := false, instance_ := none, default_id := some x.id }

/-- C1: the spec claims `setSurfaces` on an unconstrained category adopts
the new surfaces, removes exactly the non-conforming implementations and
returns success.  The source's own docstring states the same intent, but
the removal loop runs `del self.classes[cls]` with the class as key while
`classes` is keyed by id strings, so the call raises `KeyError` whenever
any implementation has to be removed; it only succeeds when every
registered implementation conforms (second conjunct). -/
theorem set_interface_keyerror_on_nonconforming :
    catA.set_interface [some ifaceFoo] = Except.error PyError.keyError ∧
    catB.set_interface [some ifaceFoo] =
      Except.ok (true, { catB with interfaces := [some ifaceFoo] }) := by
  constructor
  · decide
  · decide

/-- On the implicit-creation path, the module-level `register` returns the
`None` produced by `category_register` and stores the category described
by `freshCategory`. -/
theorem register_fresh_eq (r : Registry) (n : String) (x : Impl)
    (habs : alistGet r n = none) :
    register r n (some x) = Except.ok (none, alistSet r n (freshCategory n x)) := by
  simp only [register, habs, category_register, Category.init, Category._set_default,
    Category.register, alistGet, _get_class_name, List.find?_nil, Option.isSome_none,
    Bool.false_eq_true, if_false, exceptBind_ok, freshCategory]
  rfl

/-- C2 counterexample: `register([], "new_cat", implX)` on a fresh name
creates the category, but — contrary to the claim — `default_id` is set to
`implX`'s identifier right away (the constructor's `self.default =
system_default` assignment runs the `default` property setter), and
`get_default` immediately resolves to `implX` without any explicit
`set_default` call. -/
theorem register_new_category_sets_default_counterexample :
    register [] "new_cat" (some implX) =
      Except.ok (none, [("new_cat", freshCategory "new_cat" implX)]) ∧
    (freshCategory "new_cat" implX).default_id = some "x.py:X" ∧
    get_default [("new_cat", freshCategory "new_cat" implX)] "new_cat" =
      Except.ok (some implX) := by
  refine ⟨?_, ?_, ?_⟩
  · rfl
  · rfl
  · rfl

/-- C2 (amended): module-level `register` on a never-before-seen category
name implicitly creates the category with the class stored as system
default and registered as an extension; but — because the constructor's
`self.default = system_default` assignment runs the `default` property
setter — `default_id` is set to the class's identifier at creation time,
and `get_default` resolves to the class immediately, with no explicit
`set_default` call needed. -/
theorem register_new_category_spec (r : Registry) (n : String) (x : Impl)
    (habs : alistGet r n = none) :
    register r n (some x) = Except.ok (none, alistSet r n (freshCategory n x)) ∧
    (freshCategory n x).system_default = some x ∧
    alistGet (freshCategory n x).classes x.id = some x ∧
    (freshCategory n x).default_id = some x.id ∧
    get_default (alistSet r n (freshCategory n x)) n = Except.ok (some x) := by
  refine ⟨register_fresh_eq r n x habs, rfl, ?_, rfl, ?_⟩
  · simp [freshCategory, alistGet]
  · simp [get_default, alistGet_alistSet_self, Category._get_default, Option.bind,
          freshCategory, alistGet]

/-- Witness for `register_new_category_spec` at a concrete fresh registry. -/
theorem register_new_category_spec_witness :
    register [] "newc" (some implB) =
      Except.ok (none, alistSet [] "newc" (freshCategory "newc" implB)) ∧
    (freshCategory "newc" implB).system_default = some implB ∧
    alistGet (freshCategory "newc" implB).classes implB.id = some implB ∧
    (freshCategory "newc" implB).default_id = some implB.id ∧
    get_default (alistSet [] "newc" (freshCategory "newc" implB)) "newc" =
      Except.ok (some implB) :=
  register_new_category_spec [] "newc" implB rfl

/-- C3 counterexample: on a registry holding the category `"cat"`, the
module-level `set_default_by_id` with the unknown id `"nope"` leaves the
state unchanged but returns `True` — a truthy result — because the module
wrapper reports only whether the category exists, contradicting the
claimed falsy failure result. -/
theorem set_default_by_id_unknown_returns_true_counterexample :
    alistGet catA.classes "nope" = none ∧
    set_default_by_id [("cat", catA)] "cat" "nope" =
      Except.ok (true, [("cat", catA)]) := by
  constructor
  · rfl
  · rfl

/-- C3 (amended): with a known id, `set_default_by_id` sets the default
per `_set_default` semantics; with an unknown id it leaves the category
unchanged, emits only a diagnostic and never raises; but the module-level
return value is `True` whenever the category exists — whatever the id —
and `False` only when the category is absent (the `Category`-level method
itself always returns `None`). -/
theorem set_default_by_id_spec (r : Registry) (n id_ : String) (cat : Category)
    (hcat : alistGet r n = some cat) :
    set_default_by_id r n id_ =
      (match alistGet cat.classes id_ with
       | some cls =>
         (cat._set_default (some cls)).map (fun c1 => (true, alistSet r n c1))
       | none => Except.ok (true, alistSet r n cat)) ∧
    (alistGet cat.classes id_ = none → cat.set_default_by_id id_ = Except.ok cat) ∧
    set_default_by_id [] n id_ = Except.ok (false, []) := by
  refine ⟨?_, ?_, rfl⟩
  · cases h : alistGet cat.classes id_ with
    | none => simp [set_default_by_id, hcat, Category.set_default_by_id, h]
    | some cls => simp [set_default_by_id, hcat, Category.set_default_by_id, h]
  · intro h
    simp [Category.set_default_by_id, h]

/-- Witness for `set_default_by_id_spec`: the unknown-id branch at a
concrete registry. -/
theorem set_default_by_id_spec_witness :
    alistGet catA.classes "nope" = none ∧
    set_default_by_id [("cat", catA)] "cat" "nope" =
      (match alistGet catA.classes "nope" with
       | some cls =>
         (catA._set_default (some cls)).map
           (fun c1 => (true, alistSet [("cat", catA)] "cat" c1))
       | none => Except.ok (true, alistSet [("cat", catA)] "cat" catA)) :=
  ⟨rfl, (set_default_by_id_spec [("cat", catA)] "cat" "nope" catA rfl).1⟩

/-- C4 counterexample: creating a category with `system_default = None`
does not succeed — the constructor's trailing `self.default =
system_default` assignment tries to register `None` and
`_get_class_name(None)` raises `AttributeError`; and with a real system
default the freshly created category has `default_id` set to its
identifier, not `None`. -/
theorem category_init_none_default_counterexample :
    Category.init "cat" none (some []) false = Except.error PyError.attributeError ∧
    Category.init "cat" (some implA) (some []) false = Except.ok catA ∧
    catA.default_id ≠ none := by
  refine ⟨rfl, ?_, ?_⟩
  · rfl
  · decide

/-- C4 (amended): category creation stores a truthy `systemDefault`
verbatim and succeeds whenever it conforms to every given surface, with
an empty-turned-populated implementation table, `cachedInstance = none` —
but `defaultId` equal to the system default's identifier, because the
constructor assigns the `default` property; with `systemDefault` unset
(`None`) the constructor never returns normally (it raises `ValueError`
against a surface with public methods, `AttributeError` otherwise). -/
theorem category_init_spec (n : String) (sd : Impl) (ifaces : List (Option Interface))
    (single : Bool) (hconf : ∀ i ∈ ifaces, is_implementation (some sd) i = true) :
    Category.init n (some sd) (some ifaces) single =
      Except.ok { name := n, system_default := some sd, interfaces := ifaces,
                  classes := [(sd.id, sd)], ids := [(sd, sd.id)],
                  is_single := single, instance_ := none, default_id := some sd.id } ∧
    (Category.init n none (some ifaces) single).toOption = none := by
  constructor
  · have hfind :
        ifaces.find? (fun interface => !(is_implementation (some sd) interface)) = none := by
      rw [List.find?_eq_none]
      intro i hi
      simp [hconf i hi]
    simp [Category.init, Category._set_default, Category.register, hfind, alistGet,
          _get_class_name, alistSet]
  · cases hf : ifaces.find? (fun interface => !(is_implementation none interface)) with
    | none =>
      simp [Category.init, Category._set_default, Category.register, hf, Except.toOption]
    | some i =>
      simp [Category.init, Category._set_default, Category.register, hf, Except.toOption]

/-- Witness for `category_init_spec` at a concrete conforming default. -/
theorem category_init_spec_witness :
    Category.init "cat2" (some implB) (some [some ifaceFoo]) true =
      Except.ok { name := "cat2", system_default := some implB,
                  interfaces := [some ifaceFoo],
                  classes := [(implB.id, implB)], ids := [(implB, implB.id)],
                  is_single := true, instance_ := none, default_id := some implB.id } ∧
    (Category.init "cat2" none (some [some ifaceFoo]) true).toOption = none :=
  category_init_spec "cat2" implB [some ifaceFoo] true (by decide)

/-- C5: when a class fails conformance to at least one required surface,
`Category.register` raises `ValueError` naming the offending surface (the
first failing one in tuple order) and — the checks preceding every
mutation — leaves the category's implementation table and all other state
unchanged (the error return carries no new state). -/
theorem register_nonconforming_raises (c : Category) (x : Impl)
    (hfail : ∃ i ∈ c.interfaces, is_implementation (some x) i = false) :
    ∃ i0 ∈ c.interfaces, is_implementation (some x) i0 = false ∧
      c.register (some x) = Except.error (PyError.valueError i0) := by
  have hsome :
      (c.interfaces.find? (fun interface => !(is_implementation (some x) interface))).isSome := by
    rw [List.find?_isSome]
    obtain ⟨i, hi, hfalse⟩ := hfail
    exact ⟨i, hi, by simp [hfalse]⟩
  obtain ⟨i0, hfind⟩ := Option.isSome_iff_exists.mp hsome
  refine ⟨i0, List.mem_of_find?_eq_some hfind, ?_, ?_⟩
  · have := List.find?_some hfind
    simpa using this
  · simp [Category.register, hfind]

/-- Witness for `register_nonconforming_raises`: `implA` (no attributes)
against `catI`, whose single required surface demands `foo`. -/
theorem register_nonconforming_raises_witness :
    catI.register (some implA) = Except.error (PyError.valueError (some ifaceFoo)) := by
  obtain ⟨i0, hmem, hfail, heq⟩ :=
    register_nonconforming_raises catI implA ⟨some ifaceFoo, by decide, by decide⟩
  have hi : i0 = some ifaceFoo := by
    have := hmem
    simp [catI] at this
    exact this
  rw [hi] at heq
  exact heq

/-- C6: on a single-instance category with a selected, registered default
`x` and an empty cache, instantiating twice (the caller keeping the
produced object alive) returns the identical instance, the second call's
constructor arguments being ignored; switching the default to a different
registered class `y` clears the cache, and the next call constructs a
fresh instance of `y`, distinct from the first one. -/
theorem single_instance_cache_spec (c : Category) (x y : Impl)
    (args1 args2 args3 : List Nat) (s1 s2 s3 : Nat)
    (hsingle : c.is_single = true) (hnoinst : c.instance_ = none)
    (hdef : c.default_id = some x.id) (hcls : alistGet c.classes x.id = some x)
    (hyreg : (alistGet c.ids y).isSome = true)
    (hycls : alistGet c.classes y.id = some y)
    (hne : y.id ≠ x.id) :
    c.get_and_instantiate (fun _ => true) args1 s1 =
      Except.ok ({ cls := x.id, args := args1, serial := s1 },
        { c with instance_ := some { cls := x.id, args := args1, serial := s1 } }) ∧
    ({ c with instance_ := some { cls := x.id, args := args1, serial := s1 } } :
        Category).get_and_instantiate (fun _ => true) args2 s2 =
      Except.ok ({ cls := x.id, args := args1, serial := s1 },
        { c with instance_ := some { cls := x.id, args := args1, serial := s1 } }) ∧
    ({ c with instance_ := some { cls := x.id, args := args1, serial := s1 } } :
        Category)._set_default (some y) =
      Except.ok { c with default_id := some y.id, instance_ := none } ∧
    ({ c with default_id := some y.id, instance_ := none } :
        Category).get_and_instantiate (fun _ => true) args3 s3 =
      Except.ok ({ cls := y.id, args := args3, serial := s3 },
        { c with default_id := some y.id,
                 instance_ := some { cls := y.id, args := args3, serial := s3 } }) ∧
    ({ cls := y.id, args := args3, serial := s3 } : Inst) ≠
      { cls := x.id, args := args1, serial := s1 } := by
  refine ⟨?_, ?_, ?_, ?_, ?_⟩
  · simp [Category.get_and_instantiate, Category.get_instance, hnoinst,
          Category._get_default, hdef, hcls, Option.bind, hsingle]
  · simp [Category.get_and_instantiate, Category.get_instance]
  · simp only [Category._set_default, hyreg, _get_class_name, hdef, Except.bind,
      exceptBind_ok, if_true]
    rw [if_pos (by simp only [ne_eq, Option.some.injEq]; exact fun h => hne h.symm)]
  · simp [Category.get_and_instantiate, Category.get_instance,
          Category._get_default, hycls, Option.bind, hsingle]
  · intro h
    exact hne (congrArg Inst.cls h)

/-- Witness for `single_instance_cache_spec` on the concrete category
`catSN` with defaults `implB` and `implC`. -/
theorem single_instance_cache_spec_witness :
    catSN.get_and_instantiate (fun _ => true) [1] 0 =
      Except.ok ({ cls := implB.id, args := [1], serial := 0 },
        { catSN with instance_ := some { cls := implB.id, args := [1], serial := 0 } }) :=
  (single_instance_cache_spec catSN implB implC [1] [2] [3] 0 1 2
    rfl rfl rfl rfl (by decide) (by decide) (by decide)).1

/-- C7: selecting as default the class that is already the current
default is a no-op — the class is already registered, the id comparison
fails, and neither `default_id` nor the populated instance cache is
touched. -/
theorem set_default_same_noop (c : Category) (x : Impl)
    (hreg : (alistGet c.ids x).isSome = true) (hdef : c.default_id = some x.id) :
    c._set_default (some x) = Except.ok c := by
  simp [Category._set_default, hreg, _get_class_name, hdef, Except.bind]

/-- Witness for `set_default_same_noop` on `catSP`, whose cache is
populated: the cached instance survives. -/
theorem set_default_same_noop_witness :
    catSP._set_default (some implB) = Except.ok catSP ∧
    catSP.instance_ = some instB :=
  ⟨set_default_same_noop catSP implB (by decide) (by decide), rfl⟩

/-- A successful `register` touches only `classes` and `ids`. -/
theorem register_fields (c : Category) (cls : Option Impl) (c1 : Category)
    (h : c.register cls = Except.ok c1) :
    c1.instance_ = c.instance_ ∧ c1.is_single = c.is_single := by
  unfold Category.register at h
  cases hf : c.interfaces.find? (fun interface => !(is_implementation cls interface)) with
  | some i =>
    simp only [hf] at h
    exact Except.noConfusion h
  | none =>
    simp only [hf] at h
    cases cls with
    | none => exact Except.noConfusion h
    | some impl =>
      simp only [Except.ok.injEq] at h
      subst h
      exact ⟨rfl, rfl⟩

/-- A successful `set_interface` touches only `interfaces`. -/
theorem set_interface_fields (c : Category) (ifs : List (Option Interface))
    (p : Bool × Category) (h : c.set_interface ifs = Except.ok p) :
    p.2.instance_ = c.instance_ ∧ p.2.is_single = c.is_single := by
  unfold Category.set_interface at h
  split at h
  · dsimp only at h
    split at h
    · simp only [Except.ok.injEq] at h
      subst h
      exact ⟨rfl, rfl⟩
    · exact Except.noConfusion h
  · simp only [Except.ok.injEq] at h
    subst h
    exact ⟨rfl, rfl⟩

/-- A successful `_set_default` keeps the cache empty when it was empty,
and never touches `is_single`. -/
theorem set_default_fields (c : Category) (cls : Option Impl) (c1 : Category)
    (h : c._set_default cls = Except.ok c1) (hinst : c.instance_ = none) :
    c1.instance_ = none ∧ c1.is_single = c.is_single := by
  unfold Category._set_default at h
  cases cls with
  | none =>
    cases hx : c.register none with
    | error e =>
      simp only [hx, exceptBind_error] at h
      exact Except.noConfusion h
    | ok cA =>
      simp only [hx, exceptBind_ok, _get_class_name, exceptBind_error] at h
      exact Except.noConfusion h
  | some impl =>
    dsimp only at h
    by_cases hs : (alistGet c.ids impl).isSome
    · rw [if_pos hs] at h
      simp only [exceptBind_ok, _get_class_name] at h
      split at h
      · simp only [Except.ok.injEq] at h
        subst h
        exact ⟨rfl, rfl⟩
      · simp only [Except.ok.injEq] at h
        subst h
        exact ⟨hinst, rfl⟩
    · rw [if_neg hs] at h
      cases hr : c.register (some impl) with
      | error e =>
        simp only [hr, exceptBind_error] at h
        exact Except.noConfusion h
      | ok cA =>
        obtain ⟨hA1, hA2⟩ := register_fields c (some impl) cA hr
        simp only [hr, exceptBind_ok, _get_class_name] at h
        split at h
        · simp only [Except.ok.injEq] at h
          subst h
          exact ⟨rfl, hA2⟩
        · simp only [Except.ok.injEq] at h
          subst h
          exact ⟨hA1.trans hinst, hA2⟩

/-- A successful `set_default_by_id` keeps the cache empty when it was
empty, and never touches `is_single`. -/
theorem set_default_by_id_fields (c : Category) (id_ : String) (c1 : Category)
    (h : c.set_default_by_id id_ = Except.ok c1) (hinst : c.instance_ = none) :
    c1.instance_ = none ∧ c1.is_single = c.is_single := by
  unfold Category.set_default_by_id at h
  cases hg : alistGet c.classes id_ with
  | none =>
    simp only [hg, Except.ok.injEq] at h
    subst h
    exact ⟨hinst, rfl⟩
  | some cls =>
    simp only [hg] at h
    exact set_default_fields c (some cls) c1 h hinst

/-- On a multi-instance category, `get_and_instantiate` never mutates the
state. -/
theorem get_and_instantiate_multi (c : Category) (alive : Inst → Bool)
    (args : List Nat) (serial : Nat) (p : Inst × Category)
    (hsingle : c.is_single = false)
    (h : c.get_and_instantiate alive args serial = Except.ok p) :
    p.2 = c := by
  unfold Category.get_and_instantiate at h
  cases hg : c.get_instance alive with
  | some i =>
    simp only [hg, Except.ok.injEq] at h
    subst h
    rfl
  | none =>
    simp only [hg] at h
    cases hd : c._get_default with
    | error e =>
      simp only [hd, exceptBind_error] at h
      exact Except.noConfusion h
    | ok cls =>
      simp only [hd, exceptBind_ok, hsingle, Bool.false_eq_true, if_false,
        Except.ok.injEq] at h
      subst h
      rfl

/-- Every operation keeps the cache of a multi-instance category empty. -/
theorem step_preserves_no_cache (c : Category) (alive : Inst → Bool) (op : Op)
    (hinst : c.instance_ = none) (hsingle : c.is_single = false) :
    (c.step alive op).instance_ = none ∧ (c.step alive op).is_single = false := by
  cases op with
  | opRegister cls =>
    simp only [Category.step]
    cases hx : c.register cls with
    | ok c1 =>
      obtain ⟨h1, h2⟩ := register_fields c cls c1 hx
      exact ⟨h1.trans hinst, h2.trans hsingle⟩
    | error e => exact ⟨hinst, hsingle⟩
  | opSetInterface ifs =>
    simp only [Category.step]
    cases hx : c.set_interface ifs with
    | ok p =>
      obtain ⟨h1, h2⟩ := set_interface_fields c ifs p hx
      exact ⟨h1.trans hinst, h2.trans hsingle⟩
    | error e => exact ⟨hinst, hsingle⟩
  | opSetDefault cls =>
    simp only [Category.step]
    cases hx : c._set_default cls with
    | ok c1 =>
      obtain ⟨h1, h2⟩ := set_default_fields c cls c1 hx hinst
      exact ⟨h1, h2.trans hsingle⟩
    | error e => exact ⟨hinst, hsingle⟩
  | opSetDefaultById id_ =>
    simp only [Category.step]
    cases hx : c.set_default_by_id id_ with
    | ok c1 =>
      obtain ⟨h1, h2⟩ := set_default_by_id_fields c id_ c1 hx hinst
      exact ⟨h1, h2.trans hsingle⟩
    | error e => exact ⟨hinst, hsingle⟩
  | opGetAndInstantiate args serial =>
    simp only [Category.step]
    cases hx : c.get_and_instantiate alive args serial with
    | ok p =>
      have h1 := get_and_instantiate_multi c alive args serial p hsingle hx
      show p.2.instance_ = none ∧ p.2.is_single = false
      rw [h1]
      exact ⟨hinst, hsingle⟩
    | error e => exact ⟨hinst, hsingle⟩

/-- The empty-cache property is invariant under whole call sequences. -/
theorem steps_no_cache (alive : Inst → Bool) (ops : List Op) :
    ∀ c : Category, c.instance_ = none → c.is_single = false →
      (c.steps alive ops).instance_ = none ∧ (c.steps alive ops).is_single = false := by
  induction ops with
  | nil => exact fun c hinst hsingle => ⟨hinst, hsingle⟩
  | cons op ops ih =>
    intro c hinst hsingle
    obtain ⟨h1, h2⟩ := step_preserves_no_cache c alive op hinst hsingle
    exact ih (c.step alive op) h1 h2

/-- A successfully constructed category starts with an empty cache and the
requested instancing mode. -/
theorem init_fields (n : String) (sd : Option Impl)
    (ifs : Option (List (Option Interface))) (single : Bool) (c : Category)
    (h : Category.init n sd ifs single = Except.ok c) :
    c.instance_ = none ∧ c.is_single = single := by
  unfold Category.init at h
  exact set_default_fields _ sd c h rfl

/-- C8: a category created with `single_instance=False` never populates
its instance cache: after any sequence of operations — including any
number of `get_and_instantiate` calls — `get_instance` returns `None`. -/
theorem multi_instance_never_cached (n : String) (sd : Option Impl)
    (ifs : Option (List (Option Interface))) (c : Category)
    (hinit : Category.init n sd ifs false = Except.ok c)
    (ops : List Op) (alive alive2 : Inst → Bool) :
    (c.steps alive ops).get_instance alive2 = none := by
  obtain ⟨h1, h2⟩ := init_fields n sd ifs false c hinit
  obtain ⟨h3, _⟩ := steps_no_cache alive ops c h1 h2
  simp [Category.get_instance, h3]

/-- Witness for `multi_instance_never_cached`: two consecutive
instantiations on the concrete multi-instance category `catA`. -/
theorem multi_instance_never_cached_witness :
    (catA.steps (fun _ => true)
      [Op.opGetAndInstantiate [1] 0, Op.opGetAndInstantiate [2] 1]).get_instance
      (fun _ => true) = none :=
  multi_instance_never_cached "cat" (some implA) (some []) catA rfl
    [Op.opGetAndInstantiate [1] 0, Op.opGetAndInstantiate [2] 1]
    (fun _ => true) (fun _ => true)

/-- C9: `is_implementation(cls, surface)` returns true exactly when `cls`
exposes every attribute of the surface whose name does not start with an
underscore; checking against the absent (`None`) surface — whose `dir`
lists only underscore names — is always true, as is checking against any
surface without public names; the function is total, so it can neither
raise nor have side effects. -/
theorem is_implementation_spec (cls : Impl) (surface : Option Interface) :
    (is_implementation (some cls) surface = true ↔
      (∀ i, surface = some i → ∀ m ∈ i.attrs,
        startswithUnderscore m = false → m ∈ cls.attrs)) ∧
    is_implementation (some cls) none = true := by
  constructor
  · cases surface with
    | none => simp [is_implementation, dirPublic]
    | some i =>
      simp only [is_implementation, dirPublic, List.all_eq_true, hasattr,
        Option.some.injEq]
      constructor
      · intro h i' hi' m hm hpub
        subst hi'
        have hmem : m ∈ i.attrs.filter (fun a => !(startswithUnderscore a)) :=
          List.mem_filter.mpr ⟨hm, by simp [hpub]⟩
        have := h m hmem
        simpa using this
      · intro h m hm
        obtain ⟨hmem, hpub⟩ := List.mem_filter.mp hm
        have := h i rfl m hmem (by simpa using hpub)
        simpa using this
  · simp [is_implementation, dirPublic]

/-- Witness for `is_implementation_spec` at the concrete class `implB`
and surface `ifaceFoo`. -/
theorem is_implementation_spec_witness :
    ((is_implementation (some implB) (some ifaceFoo) = true ↔
      (∀ i, some ifaceFoo = some i → ∀ m ∈ i.attrs,
        startswithUnderscore m = false → m ∈ implB.attrs)) ∧
    is_implementation (some implB) none = true) :=
  is_implementation_spec implB (some ifaceFoo)

/-- C10: on a never-before-seen category name, the module-level
`register` creates the category with the class as its system default, but
returns the `None` coming from `category_register` — a falsy value —
whereas the already-existing-category path returns `True`; so truthiness
of the return value cannot distinguish the successful implicit-creation
path from the category-absent failure the docstring promises to report
with `False`. -/
theorem register_creation_returns_none (r : Registry) (n : String) (x : Impl)
    (habs : alistGet r n = none) :
    register r n (some x) = Except.ok (none, alistSet r n (freshCategory n x)) ∧
    pyTruthy none = false ∧
    register (alistSet r n (freshCategory n x)) n (some x) =
      Except.ok (some true,
        alistSet (alistSet r n (freshCategory n x)) n (freshCategory n x)) ∧
    pyTruthy (some true) = true := by
  refine ⟨register_fresh_eq r n x habs, rfl, ?_, rfl⟩
  simp only [register, alistGet_alistSet_self]
  have hreg : (freshCategory n x).register (some x) = Except.ok (freshCategory n x) := by
    simp [Category.register, freshCategory, alistSet]
  simp [hreg]

/-- Witness for `register_creation_returns_none` on the empty registry. -/
theorem register_creation_returns_none_witness :
    register [] "icons" (some implC) =
      Except.ok (none, alistSet [] "icons" (freshCategory "icons" implC)) ∧
    pyTruthy none = false ∧
    register (alistSet [] "icons" (freshCategory "icons" implC)) "icons" (some implC) =
      Except.ok (some true,
        alistSet (alistSet [] "icons" (freshCategory "icons" implC)) "icons"
          (freshCategory "icons" implC)) ∧
    pyTruthy (some true) = true :=
  register_creation_returns_none [] "icons" implC rfl
